import Mathlib

/-!
Shallow embedding of the ANC350 EPICS driver (slac-epics/anc350).

Source files embedded here:
* `anc350MotorApp/src/anc350AsynMotor.c` — asyn motor driver
  (`motorAxisGet`, `motorAxisSet`, `drvAnc350GetAxisStatus`,
  the file-scoped `mid` and `comms` counters);
* `anc350App/src/devAnc350.c` — longin/longout device support
  (`callbackLiRead`, `callbackLoWrite`, its own file-scoped `mid`);
* `anc350MotorApp/src/ucprotocol.h` — telegram layout constants.

Modelling conventions:
* C `int`/`Int32` values are modelled as `Int`; byte buffers as
  functions `Nat → Nat` read modulo 256 (the hardware pair is
  little-endian, and encode/decode below use that convention, matching
  the in-memory layout of the `UcAckTelegram` union overlay);
* `asynStatus` is modelled as `Bool` (`true` = `asynSuccess`); the
  driver compares `motorAxisGet` return values against `asynSuccess`,
  which is sound because `MOTOR_AXIS_OK == asynSuccess == 0` and
  `MOTOR_AXIS_ERROR == -1`;
* `epicsMutexLock` on `midMutexId` is modelled as always succeeding
  (the fallback branch only logs and keeps `localMid = 1`);
* transport behaviour (what `writeIt` / `readIt` /
  `pasynOctetSyncIO->writeRead` return) is an explicit oracle
  parameter; uninitialised stack memory (the `tel` union before any
  bytes are copied into it) is likewise an explicit oracle parameter;
* the amplitude cache `pAxis->amplitude` stores `value / 1000.0` as a
  C `double`; we store the raw integer `value` instead.  The map
  `v ↦ v / 1000.0` is injective on the `Int32` range, so statements
  about the cache changing or staying unchanged transfer verbatim;
* `comms` is modelled as an unbounded `Int`; C `int` overflow (which
  would need more than 2^31 consecutive failures) is not modelled.
-/

namespace Anc350

/-- The shared message-id counter increment, as written identically in
`motorAxisSet`, `motorAxisGet` (anc350AsynMotor.c) and `callbackLiRead`,
`callbackLoWrite` (devAnc350.c):
`mid++; if (mid > 10000) { mid = 1; } localMid = mid;`.
Takes the stored counter and returns the new stored counter, which is
also the correlation id handed to the caller. -/
def midIncrement (mid : Int) : Int :=
  let m := mid + 1
  if m > 10000 then 1 else m

/-- The stored counter after `n` sequential calls to the generator,
starting from the initial value `static int mid = 0`.  The value
returned by the `n`-th call is `midAfter n`. -/
def midAfter : Nat → Int
  | 0 => 0
  | n + 1 => midIncrement (midAfter n)

/-- The byte at little-endian position `k` of the 32-bit two's
complement representation of `v`. -/
def byteOfInt32 (v : Int) (k : Nat) : Nat :=
  (v.emod 4294967296).toNat / 256 ^ k % 256

/-- The four bytes of `v` in wire (little-endian) order. -/
def int32Bytes (v : Int) : List Nat :=
  [byteOfInt32 v 0, byteOfInt32 v 1, byteOfInt32 v 2, byteOfInt32 v 3]

/-- A byte buffer (such as the `tel` union or the `raw` array),
indexed by byte offset.  Entries are read modulo 256. -/
def Buf : Type := Nat → Nat

/-- Decode the signed 32-bit little-endian integer at byte offset
`off`, as the C code does by overlaying the reply bytes onto the
`UcAckTelegram` union and reading an `Int32` field. -/
def decInt32 (b : Buf) (off : Nat) : Int :=
  let u : Nat := b off % 256 + 256 * (b (off + 1) % 256) +
    65536 * (b (off + 2) % 256) + 16777216 * (b (off + 3) % 256)
  if u < 2147483648 then (u : Int) else (u : Int) - 4294967296

/-- Store the 32-bit value `v` at byte offset `off` (the effect of an
assignment to an `Int32` field of the union). -/
def setInt32 (b : Buf) (off : Nat) (v : Int) : Buf :=
  fun i => if off ≤ i ∧ i < off + 4 then byteOfInt32 v (i - off) else b i

/-- Copy `bytes` into the buffer starting at byte offset `off`,
leaving all other positions unchanged — the effect of the C loop
`for (count = 0; count < nBytesRead; count++) tel.raw[count+off] = raw[count];`. -/
def overlayBytes (b : Buf) (off : Nat) (bytes : List Nat) : Buf :=
  fun i => if off ≤ i ∧ i - off < bytes.length then bytes.getD (i - off) 0 else b i

/-- The declared-length canonicalization applied by `callbackLiRead`
and `callbackLoWrite` (devAnc350.c):
`if (tel.ack.hdr.length != 24) { tel.ack.hdr.length = 24; }`.
Returns the value of `tel.ack.hdr.length` after the conditional
assignment. -/
def normalizeLen (l : Int) : Int :=
  if l ≠ 24 then 24 else l

/-- The direction computation of `drvAnc350GetAxisStatus`
(anc350AsynMotor.c lines 1003–1009), on the integer-valued positions
the driver works with:
`if (position - previous_position > 500) direction = 1;
else if (position - previous_position < -500) direction = 0;
else direction = previous_direction;`. -/
def computeDirection (position previous_position previous_direction : Int) : Int :=
  if position - previous_position > 500 then 1
  else if position - previous_position < -500 then 0
  else previous_direction

/-- Outcome of one `pasynOctetSyncIO->writeRead` call as seen by
`motorAxisGet`, together with the uninitialised stack contents of the
`tel` union the reply bytes are copied over.  `status` is the asyn
return status; `bytes` are the `nBytesRead` reply bytes placed in
`raw` (at most the 28 requested). -/
structure WriteReadReply where
  status : Bool
  bytes : List Nat
  telInit : Buf

/-- The per-axis motor parameter table entries that
anc350AsynMotor.c writes through `motorParam->setInteger` /
`setDouble`.  Positions are integer-valued in this driver, so all
fields are `Int`. -/
structure MotorParams where
  done : Int
  homed : Int
  homeSignal : Int
  direction : Int
  highHardLimit : Int
  lowHardLimit : Int
  commError : Int
  problem : Int
  position : Int
  encoderPosn : Int
deriving DecidableEq

/-- Result of one `motorAxisGet` call: the new values of the
file-scoped `mid` and `comms` counters, the axis parameter table, the
caller's `*value` after the call, and the return status
(`true` = `MOTOR_AXIS_OK`). -/
structure GetResult where
  mid : Int
  comms : Int
  params : MotorParams
  value : Int
  ok : Bool
deriving DecidableEq

/-- The shared failure tail of `motorAxisGet` (anc350AsynMotor.c
lines 526–532): `comms++; if (comms > 200) { setInteger(...CommError, 1); }
return MOTOR_AXIS_ERROR;`.  The caller's `*value` is left unchanged. -/
def getFailTail (localMid comms : Int) (p : MotorParams) (value : Int) : GetResult :=
  let c := comms + 1
  { mid := localMid
    comms := c
    params := if c > 200 then { p with commError := 1 } else p
    value := value
    ok := false }

/-- `motorAxisGet` (anc350AsynMotor.c lines 456–538): obtain a fresh
correlation id from the shared `mid` counter, issue the Get request
via `writeRead`, copy the reply bytes over the `tel` union, accept the
reply only if its `correlationNumber` equals the id just generated,
and maintain the shared `comms` failure counter and the axis
`motorAxisCommError` parameter. -/
def motorAxisGet (reply : WriteReadReply) (mid comms : Int) (p : MotorParams)
    (value : Int) : GetResult :=
  let localMid := midIncrement mid
  if reply.status then
    let tel := overlayBytes reply.telInit 0 (reply.bytes.take 28)
    if decInt32 tel 16 = localMid then
      { mid := localMid
        comms := 0
        params := { p with commError := 0 }
        value := decInt32 tel 24
        ok := true }
    else
      getFailTail localMid comms p value
  else
    getFailTail localMid comms p value

/-- Result of one `motorAxisSet` call: the new `mid` counter and the
return status (`true` = `MOTOR_AXIS_OK`). -/
structure SetResult where
  mid : Int
  ok : Bool
deriving DecidableEq

/-- `motorAxisSet` (anc350AsynMotor.c lines 392–438): obtain a fresh
correlation id, build the Set telegram and write it.  The function
returns `MOTOR_AXIS_OK` as soon as the `pasynOctetSyncIO->write` call
reports success; no reply is read and no acknowledgement is awaited.
`writeOk` is the status of that single write. -/
def motorAxisSet (writeOk : Bool) (mid : Int) : SetResult :=
  let localMid := midIncrement mid
  { mid := localMid, ok := writeOk }

/-- Bit `k` of the 32-bit two's complement representation of `v`, as
extracted by the C expressions `value & ANC_STATUS_RUNNING`,
`(value & ANC_STATUS_HUMP) >> 1` and
`(value & ANC_STATUS_REF_VALID) >> 11`. -/
def bitOf (v : Int) (k : Nat) : Nat :=
  (v.emod 4294967296).toNat / 2 ^ k % 2

/-- The per-axis cached state of the `motorAxis` handle that
`drvAnc350GetAxisStatus` reads and mutates.  `amplitude` holds the raw
integer value (the C code stores `value / 1000.0`; see the file
header). -/
structure MotorAxisSt where
  previous_position : Int
  previous_direction : Int
  reference_position : Int
  reference_search : Int
  amplitude : Int
  params : MotorParams
deriving DecidableEq

/-- Transport oracle for one `drvAnc350GetAxisStatus` cycle: the
`writeRead` outcomes of the four Get exchanges (status, amplitude,
reference counter, position counter) in issue order, the write status
of the corrective single-step Set issued on homing completion, the
initial contents of the uninitialised local `value`, and the
`globalStatus` argument. -/
structure PollOracle where
  statusReply : WriteReadReply
  amplReply : WriteReadReply
  refReply : WriteReadReply
  counterReply : WriteReadReply
  setWriteOk : Bool
  valueInit : Int
  globalStatus : Int

/-- Result of one `drvAnc350GetAxisStatus` cycle: the updated axis
state and shared counters, plus (as observations of the C locals) the
four Get return statuses and the computed `position` local when the
position read succeeded. -/
structure PollResult where
  axis : MotorAxisSt
  mid : Int
  comms : Int
  okStatus : Bool
  okAmpl : Bool
  okRef : Bool
  okCounter : Bool
  newPosition : Option Int

/-- Output of the status-word branch: new parameter table,
`pAxis->reference_search`, `mid` counter, and hump bit. -/
structure StatusPhaseOut where
  params : MotorParams
  refSearch : Int
  mid : Int
  hump : Nat

/-- The status-word branch of `drvAnc350GetAxisStatus`
(anc350AsynMotor.c lines 950–977), entered when the status Get
succeeded: derive the done flag from the running bit, handle the
reference-valid bit (publishing not-homed, or completing a homing
operation with a corrective single-step Set), and extract the hump
bit.  `r1` is the result of the status Get; `refSearch` is
`pAxis->reference_search`. -/
def statusPhase (r1 : GetResult) (refSearch : Int) (setWriteOk : Bool) :
    StatusPhaseOut :=
  if r1.ok then
    let done := bitOf r1.value 0
    let pA := if done = 0 then { r1.params with done := 1 }
              else { r1.params with done := 0 }
    let referenced : Int := (bitOf r1.value 11 : Nat)
    if referenced = 0 then
      { params := { pA with homed := referenced, homeSignal := referenced }
        refSearch := refSearch
        mid := r1.mid
        hump := bitOf r1.value 1 }
    else if refSearch = 1 then
      let s := motorAxisSet setWriteOk r1.mid
      { params := { pA with done := 1, homed := referenced, homeSignal := referenced }
        refSearch := 0
        mid := s.mid
        hump := bitOf r1.value 1 }
    else
      { params := pA, refSearch := refSearch, mid := r1.mid, hump := bitOf r1.value 1 }
  else
    { params := r1.params, refSearch := refSearch, mid := r1.mid, hump := 0 }

/-- Output of the position-counter branch: new parameter table, the
axis reference/position/direction caches, and the values of the C
locals `direction` and `position` after the branch (`direction` is
initialised to 0; `position` is only defined when the read
succeeded). -/
structure PositionPhaseOut where
  params : MotorParams
  refPos : Int
  prevPos : Int
  prevDir : Int
  directionLocal : Int
  newPosition : Option Int

/-- The position-counter branch of `drvAnc350GetAxisStatus`
(anc350AsynMotor.c lines 990–1017): on a successful read, subtract
the local reference position, run the direction deadband, and update
the cached position, direction and reference position; on a failed
read leave every cache unchanged. -/
def positionPhase (r4 : GetResult) (referencePositionLocal : Int) (a : MotorAxisSt) :
    PositionPhaseOut :=
  if r4.ok then
    let position := r4.value - referencePositionLocal
    let direction := computeDirection position a.previous_position a.previous_direction
    { params := { r4.params with direction := direction, position := position, encoderPosn := position }
      refPos := referencePositionLocal
      prevPos := position
      prevDir := direction
      directionLocal := direction
      newPosition := some position }
  else
    { params := r4.params
      refPos := a.reference_position
      prevPos := a.previous_position
      prevDir := a.previous_direction
      directionLocal := 0
      newPosition := none }

/-- The hard-limit inference of `drvAnc350GetAxisStatus`
(anc350AsynMotor.c lines 1019–1031): attribute a hump to the forward
or backward limit according to the local `direction`, and clear both
flags whenever no hump was observed or the status read failed. -/
def limitPhase (p : MotorParams) (hump : Nat) (humpstatus : Bool)
    (directionLocal : Int) : MotorParams :=
  if hump ≠ 0 ∧ humpstatus = true then
    if directionLocal = 1 then { p with highHardLimit := 1, lowHardLimit := 0 }
    else { p with highHardLimit := 0, lowHardLimit := 1 }
  else { p with highHardLimit := 0, lowHardLimit := 0 }

/-- `drvAnc350GetAxisStatus` (anc350AsynMotor.c lines 933–1039): one
poll cycle for one axis.  Reads the status word, amplitude, reference
position and position counter through `motorAxisGet` (threading the
shared `mid` and `comms` counters and the local `value` through all
four), decodes the status bitfield, performs the homing-completion
Set, computes the direction with the ±500 deadband, updates the
cached axis state and derives the hard-limit flags.  The amplitude
cache is assigned from the local `value` unconditionally, with no
status check. -/
def drvAnc350GetAxisStatus (oc : PollOracle) (mid comms : Int) (a : MotorAxisSt) :
    PollResult :=
  let r1 := motorAxisGet oc.statusReply mid comms a.params oc.valueInit
  let humpstatus := r1.ok
  let sb := statusPhase r1 a.reference_search oc.setWriteOk
  let r2 := motorAxisGet oc.amplReply sb.mid r1.comms sb.params r1.value
  let amplitude := r2.value
  let r3 := motorAxisGet oc.refReply r2.mid r2.comms r2.params r2.value
  let referencePositionLocal := if r3.ok then r3.value else a.reference_position
  let r4 := motorAxisGet oc.counterReply r3.mid r3.comms r3.params r3.value
  let pb := positionPhase r4 referencePositionLocal a
  let p3 := limitPhase pb.params sb.hump humpstatus pb.directionLocal
  let p4 := { p3 with problem := oc.globalStatus }
  { axis := { previous_position := pb.prevPos
              previous_direction := pb.prevDir
              reference_position := pb.refPos
              reference_search := sb.refSearch
              amplitude := amplitude
              params := p4 }
    mid := r4.mid
    comms := r4.comms
    okStatus := r1.ok
    okAmpl := r2.ok
    okRef := r3.ok
    okCounter := r4.ok
    newPosition := pb.newPosition }

/-- Outcome of one `readIt` call in devAnc350.c: the asyn status and
the bytes delivered (`nBytesRead` of them). -/
structure ReadReply where
  status : Bool
  bytes : List Nat

/-- State after a bounded read-retry loop. -/
structure ReadLoopOut where
  idx : Nat
  status : Bool
  buf : List Nat
  nBytesRead : Nat
  retries : Nat
  log : List Nat

/-- One bounded read-retry loop of devAnc350.c, of the shape
`while (cont(nBytesRead) && retries < cap) { status = readIt(..., raw, maxBytes, &nBytesRead); retries++; }`.
`reads` is the transport oracle indexed by the running count of
`readIt` calls; each call appends its `maxBytes` request to `log`.
Each iteration overwrites `raw` (here `buf`) and `nBytesRead` with
that read's results; the delivered bytes are truncated to the
requested `maxBytes` per the asyn contract. -/
def readLoop (reads : Nat → ReadReply) (cont : Nat → Bool) (maxBytes cap : Nat) :
    Nat → Nat → Bool → List Nat → Nat → Nat → List Nat → ReadLoopOut
  | 0, idx, status, buf, nB, retries, log =>
    -- structural fuel exhausted; call sites pass fuel ≥ cap - retries,
    -- so this case coincides with the loop guard being false
    { idx := idx, status := status, buf := buf, nBytesRead := nB,
      retries := retries, log := log }
  | fuel + 1, idx, status, buf, nB, retries, log =>
    if cont nB = true ∧ retries < cap then
      let r := reads idx
      let bs := r.bytes.take maxBytes
      readLoop reads cont maxBytes cap fuel (idx + 1) r.status bs bs.length
        (retries + 1) (log ++ [maxBytes])
    else
      { idx := idx, status := status, buf := buf, nBytesRead := nB,
        retries := retries, log := log }

/-- Result of the reply-matching loop. -/
structure ExchangeOut where
  tel : Buf
  matched : Bool
  status : Bool
  log : List Nat

/-- State after one body of the reply-matching loop. -/
structure BodyOut where
  tel : Buf
  status : Bool
  idx : Nat
  buf : List Nat
  nBytesRead : Nat
  retries : Nat
  log : List Nat

/-- One body of the reply-matching loop shared by `callbackLiRead`
(devAnc350.c lines 307–335) and `callbackLoWrite` (lines 469–497):
read the 4-byte length prefix (one attempt); if that succeeded, copy
it over the `tel` union, normalize the declared length to 24
(`if (tel.ack.hdr.length != 24) tel.ack.hdr.length = 24;`), read the
remaining `tel.ack.hdr.length` bytes with up to `bodyCap` attempts
(3 in the longin path, 1 in the longout path), and on success copy
them over the union at offset 4. -/
def ackExchangeBody (reads : Nat → ReadReply) (bodyCap : Nat) (idx : Nat)
    (tel : Buf) (status : Bool) (buf : List Nat) (nB retries : Nat)
    (log : List Nat) : BodyOut :=
  let o1 := readLoop reads (fun n => n == 0) 4 1 1 idx status buf nB retries log
  if o1.status then
    let tel1 := overlayBytes tel 0 (o1.buf.take o1.nBytesRead)
    let declaredLen := decInt32 tel1 0
    let tel2 := if declaredLen ≠ 24 then setInt32 tel1 0 24 else tel1
    let target := (normalizeLen declaredLen).toNat
    let o3 := readLoop reads (fun n => decide (n ≠ target)) target bodyCap bodyCap
      o1.idx o1.status o1.buf 0 0 o1.log
    let tel3 := if o3.status then overlayBytes tel2 4 (o3.buf.take o3.nBytesRead)
      else tel2
    { tel := tel3, status := o3.status, idx := o3.idx, buf := o3.buf,
      nBytesRead := o3.nBytesRead, retries := o3.retries, log := o3.log }
  else
    { tel := tel, status := o1.status, idx := o1.idx, buf := o1.buf,
      nBytesRead := o1.nBytesRead, retries := o1.retries, log := o1.log }

/-- The reply-matching loop shared by `callbackLiRead` (devAnc350.c
lines 306–346) and `callbackLoWrite` (lines 468–507):
`while (match == 0 && msgretries < 1) { ... }`.  Each body runs
`ackExchangeBody` and then accepts the reply when its
`correlationNumber` equals `localMid` and the last status was
success; otherwise `msgretries` is incremented.  On a match the loop
exits via its condition, so returning directly is equal to
re-entering the loop once more.  The first argument is structural
fuel; call sites pass fuel ≥ 1 - msgretries, so running out of fuel
coincides with the loop guard being false. -/
def ackExchangeLoop (reads : Nat → ReadReply) (localMid : Int) (bodyCap : Nat) :
    Nat → Nat → Buf → Bool → Nat → Bool → List Nat → Nat → Nat → List Nat →
    ExchangeOut
  | 0, _idx, tel, matched, _msgretries, status, _buf, _nB, _retries, log =>
    { tel := tel, matched := matched, status := status, log := log }
  | fuel + 1, idx, tel, matched, msgretries, status, buf, nB, retries, log =>
    if matched = false ∧ msgretries < 1 then
      let o := ackExchangeBody reads bodyCap idx tel status buf nB retries log
      if decInt32 o.tel 16 = localMid ∧ o.status = true then
        { tel := o.tel, matched := true, status := o.status, log := o.log }
      else
        ackExchangeLoop reads localMid bodyCap fuel o.idx o.tel false
          (msgretries + 1) o.status o.buf o.nBytesRead o.retries o.log
    else
      { tel := tel, matched := matched, status := status, log := log }

/-- Transport oracle for one record-processing callback: the status of
the single request `writeIt`, the successive `readIt` outcomes, and
the uninitialised stack contents of the `tel` union.  (`flushIt` is
issued before the write; its status is overwritten and has no other
observable effect here.)  The record's INP/OUT link is assumed valid:
on an invalid link the callback returns before touching the
transport or the record fields. -/
structure LiOracle where
  writeOk : Bool
  reads : Nat → ReadReply
  telInit : Buf

/-- The longin record fields the callback may write. -/
structure LiState where
  val : Int
  udf : Int

/-- Result of one `callbackLiRead` processing: the new shared `mid`
counter, the record fields, the match flag, the last asyn status, the
final `tel` buffer, the number of request transmissions performed and
the `maxBytes` of every `readIt` call in order. -/
structure CallbackResult where
  mid : Int
  val : Int
  udf : Int
  matched : Bool
  finalStatus : Bool
  tel : Buf
  writes : Nat
  readLog : List Nat

/-- `callbackLiRead` (devAnc350.c lines 236–352): increment the shared
`mid`, flush, write the Get telegram once, and run the reply-matching
loop; on a correlation-matched, transport-successful reply set
`pli->udf = 0` and `pli->val = tel.ack.data[0]`, otherwise leave both
fields as they were.  The field assignments happen exactly when the
loop sets `match`, after which the loop exits, so performing them
after the loop is equal. -/
def callbackLiRead (oc : LiOracle) (mid : Int) (st : LiState) : CallbackResult :=
  let localMid := midIncrement mid
  if oc.writeOk then
    let e := ackExchangeLoop oc.reads localMid 3 2 0 oc.telInit false 0 true [] 0 0 []
    if e.matched then
      { mid := localMid, val := decInt32 e.tel 24, udf := 0, matched := true,
        finalStatus := e.status, tel := e.tel, writes := 1, readLog := e.log }
    else
      { mid := localMid, val := st.val, udf := st.udf, matched := false,
        finalStatus := e.status, tel := e.tel, writes := 1, readLog := e.log }
  else
    { mid := localMid, val := st.val, udf := st.udf, matched := false,
      finalStatus := false, tel := oc.telInit, writes := 1, readLog := [] }

/-- Result of one `callbackLoWrite` processing. -/
structure LoResult where
  mid : Int
  udf : Int
  matched : Bool
  finalStatus : Bool
  tel : Buf
  writes : Nat
  readLog : List Nat

/-- `callbackLoWrite` (devAnc350.c lines 392–513): increment the
shared `mid`, flush, write the Set telegram once, and run the
reply-matching loop with a single remaining-read attempt; on a
correlation-matched, transport-successful Ack set `plo->udf = 0`.
The Ack `reason` word (bytes 20–23) is never inspected. -/
def callbackLoWrite (oc : LiOracle) (mid : Int) (udf0 : Int) : LoResult :=
  let localMid := midIncrement mid
  if oc.writeOk then
    let e := ackExchangeLoop oc.reads localMid 1 2 0 oc.telInit false 0 true [] 0 0 []
    if e.matched then
      { mid := localMid, udf := 0, matched := true, finalStatus := e.status,
        tel := e.tel, writes := 1, readLog := e.log }
    else
      { mid := localMid, udf := udf0, matched := false, finalStatus := e.status,
        tel := e.tel, writes := 1, readLog := e.log }
  else
    { mid := localMid, udf := udf0, matched := false, finalStatus := false,
      tel := oc.telInit, writes := 1, readLog := [] }

/-- The all-zero byte buffer, used as a concrete choice for
uninitialised stack contents. -/
def zeroBuf : Buf := fun _ => 0

/-- The all-zero parameter table, a concrete freshly-created axis
parameter state. -/
def cleanParams : MotorParams :=
  { done := 0, homed := 0, homeSignal := 0, direction := 0, highHardLimit := 0,
    lowHardLimit := 0, commError := 0, problem := 0, position := 0,
    encoderPosn := 0 }

/-- A completely failed `writeRead` exchange: the transport call
reports an error and delivers no bytes. -/
def failReply : WriteReadReply :=
  { status := false, bytes := [], telInit := zeroBuf }

/-- The 24 bytes of a canonical Ack telegram after its length prefix:
opcode `UC_ACK` (3), address 0, index 0, then the correlation number,
reason and data word, all little-endian. -/
def ackRest (correl reason data0 : Int) : List Nat :=
  [3, 0, 0, 0, 0, 0, 0, 0, 0, 0, 0, 0] ++
    int32Bytes correl ++ int32Bytes reason ++ int32Bytes data0

/-- The full 28 bytes of a canonical Ack telegram on the wire:
length prefix 24 followed by `ackRest`. -/
def ackWire (correl reason data0 : Int) : List Nat :=
  int32Bytes 24 ++ ackRest correl reason data0

/-- A `writeRead` outcome delivering a complete canonical Ack. -/
def motorAckReply (correl reason data0 : Int) : WriteReadReply :=
  { status := true, bytes := ackWire correl reason data0, telInit := zeroBuf }

/-- A record-callback transport oracle whose write succeeds and whose
reads deliver a canonical Ack: first the 4-byte length prefix 24,
then the remaining 24 bytes. -/
def ackOracle (correl reason data0 : Int) : LiOracle :=
  { writeOk := true
    reads := fun i => if i = 0 then { status := true, bytes := int32Bytes 24 }
             else { status := true, bytes := ackRest correl reason data0 }
    telInit := zeroBuf }

/-- A record-callback transport oracle whose write succeeds but whose
reads all fail delivering nothing (a silent controller). -/
def silentOracle : LiOracle :=
  { writeOk := true
    reads := fun _ => { status := false, bytes := [] }
    telInit := zeroBuf }

/-- `n` consecutive completely failed `motorAxisGet` exchanges,
threading the file-scoped `(mid, comms)` counters and the axis
parameter table; the caller value argument is 0. -/
def iterateFailedGets : Nat → Int × Int × MotorParams → Int × Int × MotorParams
  | 0, s => s
  | n + 1, s =>
      let s' := iterateFailedGets n s
      let r := motorAxisGet failReply s'.1 s'.2.1 s'.2.2 0
      (r.mid, r.comms, r.params)

/-- Two driver instances of anc350AsynMotor.c.  The file-scoped
`static int mid` and `static int comms` are single variables shared by
every instance, while each axis owns its parameter table. -/
structure TwoControllers where
  mid : Int
  comms : Int
  params1 : MotorParams
  params2 : MotorParams
deriving DecidableEq

/-- One `motorAxisGet` issued by an axis of controller 1: reads and
writes the shared `mid` and `comms`, and controller 1's parameter
table. -/
def getOnController1 (reply : WriteReadReply) (v : Int) (s : TwoControllers) :
    TwoControllers :=
  let r := motorAxisGet reply s.mid s.comms s.params1 v
  { s with mid := r.mid, comms := r.comms, params1 := r.params }

/-- One `motorAxisGet` issued by an axis of controller 2: reads and
writes the shared `mid` and `comms`, and controller 2's parameter
table. -/
def getOnController2 (reply : WriteReadReply) (v : Int) (s : TwoControllers) :
    TwoControllers :=
  let r := motorAxisGet reply s.mid s.comms s.params2 v
  { s with mid := r.mid, comms := r.comms, params2 := r.params }

/-- `n` consecutive completely failed exchanges on controller 1. -/
def iterateFailOn1 : Nat → TwoControllers → TwoControllers
  | 0, s => s
  | n + 1, s => getOnController1 failReply 0 (iterateFailOn1 n s)

/-- Closed form of the generator: the `n+1`-st call returns
`(n % 10000) + 1`. -/
theorem midAfter_succ (n : Nat) :
    midAfter (n + 1) = ((n % 10000 : Nat) : Int) + 1 := by
  induction n with
  | zero => rfl
  | succ k ih =>
      show midIncrement (midAfter (k + 1)) = _
      rw [ih]
      unfold midIncrement
      rcases Nat.lt_or_ge (k % 10000) 9999 with h | h
      · have h2 : (k + 1) % 10000 = k % 10000 + 1 := by omega
        have h3 : ¬ (((k % 10000 : Nat) : Int) + 1 + 1 > 10000) := by
          push_cast
          omega
        simp only [h3, if_false]
        rw [h2]
        push_cast
        ring
      · have hk : k % 10000 = 9999 := by
          have := Nat.mod_lt k (y := 10000) (by omega)
          omega
        have h2 : (k + 1) % 10000 = 0 := by omega
        rw [hk, h2]
        norm_num

/-- The declared-length canonicalization always yields 24. -/
theorem normalizeLen_eq_24 (l : Int) : normalizeLen l = 24 := by
  unfold normalizeLen
  split <;> omega

/-- Every `readIt` issued by `readLoop` requests exactly `maxBytes`
bytes: the log grows only by copies of `maxBytes`. -/
theorem readLoop_log (reads : Nat → ReadReply) (cont : Nat → Bool)
    (maxBytes cap : Nat) :
    ∀ (fuel idx : Nat) (status : Bool) (buf : List Nat) (nB retries : Nat)
      (log : List Nat),
      ∀ x ∈ (readLoop reads cont maxBytes cap fuel idx status buf nB retries log).log,
        x ∈ log ∨ x = maxBytes := by
  intro fuel
  induction fuel with
  | zero =>
      intro idx status buf nB retries log x hx
      simp only [readLoop] at hx
      exact Or.inl hx
  | succ k ih =>
      intro idx status buf nB retries log x hx
      simp only [readLoop] at hx
      by_cases h : cont nB = true ∧ retries < cap
      · rw [if_pos h] at hx
        rcases ih _ _ _ _ _ _ x hx with h1 | h1
        · rcases List.mem_append.mp h1 with h2 | h2
          · exact Or.inl h2
          · simp only [List.mem_singleton] at h2
            exact Or.inr h2
        · exact Or.inr h1
      · rw [if_neg h] at hx
        exact Or.inl hx

/-- Every `readIt` issued by one exchange-loop body requests either 4
bytes (the length prefix) or exactly 24 bytes (the canonical
remaining-byte count), whatever length the wire declared. -/
theorem ackExchangeBody_log (reads : Nat → ReadReply) (bodyCap idx : Nat)
    (tel : Buf) (status : Bool) (buf : List Nat) (nB retries : Nat)
    (log : List Nat) :
    ∀ x ∈ (ackExchangeBody reads bodyCap idx tel status buf nB retries log).log,
      x ∈ log ∨ x = 4 ∨ x = 24 := by
  intro x hx
  unfold ackExchangeBody at hx
  have h4 : ∀ y ∈ (readLoop reads (fun n => n == 0) 4 1 1 idx status buf nB
      retries log).log, y ∈ log ∨ y = 4 := readLoop_log _ _ _ _ _ _ _ _ _ _ _
  by_cases h1 : (readLoop reads (fun n => n == 0) 4 1 1 idx status buf nB
      retries log).status = true
  · rw [if_pos h1] at hx
    simp only at hx
    rcases readLoop_log _ _ _ _ _ _ _ _ _ _ _ x hx with h2 | h2
    · rcases h4 x h2 with h3 | h3
      · exact Or.inl h3
      · exact Or.inr (Or.inl h3)
    · right; right
      rw [h2, normalizeLen_eq_24]
      rfl
  · rw [if_neg h1] at hx
    simp only at hx
    rcases h4 x hx with h3 | h3
    · exact Or.inl h3
    · exact Or.inr (Or.inl h3)

/-- Every `readIt` issued by the reply-matching loop requests either 4
or 24 bytes. -/
theorem ackExchangeLoop_log (reads : Nat → ReadReply) (localMid : Int)
    (bodyCap : Nat) :
    ∀ (fuel idx : Nat) (tel : Buf) (matched : Bool) (msgretries : Nat)
      (status : Bool) (buf : List Nat) (nB retries : Nat) (log : List Nat),
      ∀ x ∈ (ackExchangeLoop reads localMid bodyCap fuel idx tel matched
        msgretries status buf nB retries log).log,
        x ∈ log ∨ x = 4 ∨ x = 24 := by
  intro fuel
  induction fuel with
  | zero =>
      intro idx tel matched msgretries status buf nB retries log x hx
      simp only [ackExchangeLoop] at hx
      exact Or.inl hx
  | succ k ih =>
      intro idx tel matched msgretries status buf nB retries log x hx
      simp only [ackExchangeLoop] at hx
      by_cases hg : matched = false ∧ msgretries < 1
      · rw [if_pos hg] at hx
        by_cases hc : decInt32 (ackExchangeBody reads bodyCap idx tel status buf
            nB retries log).tel 16 = localMid ∧
            (ackExchangeBody reads bodyCap idx tel status buf nB retries log).status = true
        · rw [if_pos hc] at hx
          simp only at hx
          exact ackExchangeBody_log _ _ _ _ _ _ _ _ _ x hx
        · rw [if_neg hc] at hx
          rcases ih _ _ _ _ _ _ _ _ _ x hx with h1 | h1
          · exact ackExchangeBody_log _ _ _ _ _ _ _ _ _ x h1
          · exact Or.inr h1
      · rw [if_neg hg] at hx
        exact Or.inl hx

/-- If the reply-matching loop (entered unmatched) ends matched, then
the final status is success and the final telegram's correlation
number equals `localMid`. -/
theorem ackExchangeLoop_matched_spec (reads : Nat → ReadReply) (localMid : Int)
    (bodyCap : Nat) :
    ∀ (fuel idx : Nat) (tel : Buf) (msgretries : Nat) (status : Bool)
      (buf : List Nat) (nB retries : Nat) (log : List Nat),
      (ackExchangeLoop reads localMid bodyCap fuel idx tel false msgretries
        status buf nB retries log).matched = true →
      (ackExchangeLoop reads localMid bodyCap fuel idx tel false msgretries
        status buf nB retries log).status = true ∧
      decInt32 (ackExchangeLoop reads localMid bodyCap fuel idx tel false
        msgretries status buf nB retries log).tel 16 = localMid := by
  intro fuel
  induction fuel with
  | zero =>
      intro idx tel msgretries status buf nB retries log h
      simp only [ackExchangeLoop] at h
      exact absurd h (by simp)
  | succ k ih =>
      intro idx tel msgretries status buf nB retries log h
      simp only [ackExchangeLoop, true_and] at h ⊢
      by_cases hg : msgretries < 1
      · rw [if_pos hg] at h ⊢
        by_cases hc : decInt32 (ackExchangeBody reads bodyCap idx tel status buf
            nB retries log).tel 16 = localMid ∧
            (ackExchangeBody reads bodyCap idx tel status buf nB retries log).status = true
        · rw [if_pos hc]
          exact ⟨hc.2, hc.1⟩
        · rw [if_neg hc] at h ⊢
          exact ih _ _ _ _ _ _ _ _ h
      · rw [if_neg hg] at h
        exact absurd h (by simp)

/-- `motorAxisGet` only ever writes the `commError` entry of the
parameter table: every other entry is preserved, and `mid` always
advances by one generator step. -/
theorem motorAxisGet_frame (reply : WriteReadReply) (m c v : Int) (p : MotorParams) :
    (motorAxisGet reply m c p v).mid = midIncrement m ∧
    (motorAxisGet reply m c p v).params.done = p.done ∧
    (motorAxisGet reply m c p v).params.homed = p.homed ∧
    (motorAxisGet reply m c p v).params.homeSignal = p.homeSignal ∧
    (motorAxisGet reply m c p v).params.direction = p.direction ∧
    (motorAxisGet reply m c p v).params.highHardLimit = p.highHardLimit ∧
    (motorAxisGet reply m c p v).params.lowHardLimit = p.lowHardLimit ∧
    (motorAxisGet reply m c p v).params.position = p.position ∧
    (motorAxisGet reply m c p v).params.encoderPosn = p.encoderPosn ∧
    (motorAxisGet reply m c p v).params.problem = p.problem := by
  simp only [motorAxisGet, getFailTail]
  split_ifs <;> simp

/-- A failed `motorAxisGet` leaves the caller's value untouched. -/
theorem motorAxisGet_value_of_fail (reply : WriteReadReply) (m c v : Int)
    (p : MotorParams) (h : (motorAxisGet reply m c p v).ok = false) :
    (motorAxisGet reply m c p v).value = v := by
  simp only [motorAxisGet, getFailTail] at h ⊢
  split_ifs at h ⊢ <;> simp_all

/-- When the status Get failed, the status branch changes nothing:
parameters and `reference_search` pass through and the hump bit is 0. -/
theorem statusPhase_of_fail (r1 : GetResult) (refSearch : Int) (w : Bool)
    (h : r1.ok = false) :
    statusPhase r1 refSearch w =
      { params := r1.params, refSearch := refSearch, mid := r1.mid, hump := 0 } := by
  unfold statusPhase
  rw [h]
  rfl

/-- The status branch only ever writes the `done`, `homed` and
`homeSignal` entries of the parameter table. -/
theorem statusPhase_frame (r1 : GetResult) (refSearch : Int) (w : Bool) :
    (statusPhase r1 refSearch w).params.direction = r1.params.direction ∧
    (statusPhase r1 refSearch w).params.highHardLimit = r1.params.highHardLimit ∧
    (statusPhase r1 refSearch w).params.lowHardLimit = r1.params.lowHardLimit ∧
    (statusPhase r1 refSearch w).params.commError = r1.params.commError ∧
    (statusPhase r1 refSearch w).params.position = r1.params.position ∧
    (statusPhase r1 refSearch w).params.encoderPosn = r1.params.encoderPosn ∧
    (statusPhase r1 refSearch w).params.problem = r1.params.problem := by
  simp only [statusPhase]
  split_ifs <;> simp

/-- When the position Get failed, the position branch keeps every
cache: parameters pass through, the reference/previous caches are the
axis's old ones, the local direction is 0 and no position exists. -/
theorem positionPhase_of_fail (r4 : GetResult) (rl : Int) (a : MotorAxisSt)
    (h : r4.ok = false) :
    positionPhase r4 rl a =
      { params := r4.params, refPos := a.reference_position,
        prevPos := a.previous_position, prevDir := a.previous_direction,
        directionLocal := 0, newPosition := none } := by
  unfold positionPhase
  rw [h]
  rfl

/-- The position branch only ever writes the `direction`, `position`
and `encoderPosn` entries of the parameter table. -/
theorem positionPhase_frame (r4 : GetResult) (rl : Int) (a : MotorAxisSt) :
    (positionPhase r4 rl a).params.done = r4.params.done ∧
    (positionPhase r4 rl a).params.homed = r4.params.homed ∧
    (positionPhase r4 rl a).params.homeSignal = r4.params.homeSignal ∧
    (positionPhase r4 rl a).params.highHardLimit = r4.params.highHardLimit ∧
    (positionPhase r4 rl a).params.lowHardLimit = r4.params.lowHardLimit ∧
    (positionPhase r4 rl a).params.commError = r4.params.commError ∧
    (positionPhase r4 rl a).params.problem = r4.params.problem := by
  simp only [positionPhase]
  split_ifs <;> simp

/-- The reference-position cache after the position branch: the local
reference value when the read succeeded, the old cache otherwise. -/
theorem positionPhase_refPos (r4 : GetResult) (rl : Int) (a : MotorAxisSt) :
    (positionPhase r4 rl a).refPos =
      if r4.ok = true then rl else a.reference_position := by
  unfold positionPhase
  split_ifs <;> rfl

/-- The limit inference only ever writes the two hard-limit entries. -/
theorem limitPhase_frame (p : MotorParams) (hump : Nat) (hs : Bool) (d : Int) :
    (limitPhase p hump hs d).done = p.done ∧
    (limitPhase p hump hs d).homed = p.homed ∧
    (limitPhase p hump hs d).homeSignal = p.homeSignal ∧
    (limitPhase p hump hs d).direction = p.direction ∧
    (limitPhase p hump hs d).commError = p.commError ∧
    (limitPhase p hump hs d).position = p.position ∧
    (limitPhase p hump hs d).encoderPosn = p.encoderPosn := by
  simp only [limitPhase]
  split_ifs <;> simp

/-- With hump bit 0 the limit inference clears both hard-limit flags. -/
theorem limitPhase_no_hump (p : MotorParams) (hs : Bool) (d : Int) :
    (limitPhase p 0 hs d).highHardLimit = 0 ∧
    (limitPhase p 0 hs d).lowHardLimit = 0 := by
  simp only [limitPhase]
  simp

/-- Closed form of `n` consecutive failed exchanges from the initial
counters: `mid` runs through the generator, `comms` counts the
failures, and the comm-error flag is raised exactly once the counter
exceeds 200. -/
theorem iterateFailedGets_closed (p : MotorParams) :
    ∀ n : Nat, iterateFailedGets n (0, 0, p) =
      (midAfter n, (n : Int),
        if (n : Int) > 200 then { p with commError := 1 } else p) := by
  intro n
  induction n with
  | zero =>
      simp [iterateFailedGets, midAfter]
  | succ k ih =>
      show (let s' := iterateFailedGets k (0, 0, p);
        let r := motorAxisGet failReply s'.1 s'.2.1 s'.2.2 0;
        (r.mid, r.comms, r.params)) = _
      rw [ih]
      simp only [motorAxisGet, failReply, getFailTail, Bool.false_eq_true,
        if_false, midAfter]
      refine Prod.ext rfl (Prod.ext ?_ ?_)
      · show (k : Int) + 1 = ((k + 1 : Nat) : Int)
        push_cast
        ring
      · show (if (k : Int) + 1 > 200 then _ else _) = _
        by_cases hk : ((k + 1 : Nat) : Int) > 200
        · rw [if_pos (by push_cast at hk ⊢; omega), if_pos hk]
          by_cases hk2 : (k : Int) > 200
          · rw [if_pos hk2]
          · rw [if_neg hk2]
        · rw [if_neg (by push_cast at hk ⊢; omega), if_neg hk]
          rw [if_neg (by push_cast at hk ⊢; omega)]

/-- Claim C1: for every get exchange, a decoded reply whose
`correlationNumber` differs from the correlation id placed in the
request is treated as not matched and reported as a failure, even
when every transport write and read succeeded, and the received data
word is not stored: `motorAxisGet` returns an error and leaves the
caller's value unchanged, and `callbackLiRead` ends unmatched and
leaves the record's `val` and `udf` unchanged. -/
theorem motorAxisGet_rejects_mismatched_reply :
    (∀ (reply : WriteReadReply) (m c v : Int) (p : MotorParams),
      reply.status = true →
      decInt32 (overlayBytes reply.telInit 0 (reply.bytes.take 28)) 16 ≠
        midIncrement m →
      (motorAxisGet reply m c p v).ok = false ∧
      (motorAxisGet reply m c p v).value = v) ∧
    (∀ (oc : LiOracle) (m : Int) (st : LiState),
      decInt32 (callbackLiRead oc m st).tel 16 ≠ midIncrement m →
      (callbackLiRead oc m st).matched = false ∧
      (callbackLiRead oc m st).val = st.val ∧
      (callbackLiRead oc m st).udf = st.udf) := by
  constructor
  · intro reply m c v p hst hmm
    simp only [motorAxisGet, getFailTail, hst, if_true]
    rw [if_neg hmm]
    simp
  · intro oc m st hmm
    by_cases hw : oc.writeOk = true
    · by_cases hmatch : (ackExchangeLoop oc.reads (midIncrement m) 3 2 0 oc.telInit
          false 0 true [] 0 0 []).matched = true
      · exfalso
        apply hmm
        have hspec := (ackExchangeLoop_matched_spec oc.reads (midIncrement m) 3 2 0
          oc.telInit 0 true [] 0 0 [] hmatch).2
        simp only [callbackLiRead, hw, if_true, hmatch]
        simpa using hspec
      · simp only [callbackLiRead, hw, if_true]
        rw [if_neg hmatch]
        simp
    · simp only [callbackLiRead]
      rw [if_neg hw]
      simp

/-- Claim C1 witness: a concrete exchange whose transport succeeded
but whose reply carries correlation number 999 against request id 1
is rejected and stores nothing. -/
theorem motorAxisGet_rejects_mismatched_reply_witness :
    (motorAxisGet (motorAckReply 999 0 5) 0 0 cleanParams 42).ok = false ∧
    (motorAxisGet (motorAckReply 999 0 5) 0 0 cleanParams 42).value = 42 :=
  motorAxisGet_rejects_mismatched_reply.1 (motorAckReply 999 0 5) 0 0 42
    cleanParams (by decide) (by decide)

/-- Claim C2: starting from the initial counter value 0, the `N`-th
sequential call to the correlation-id generator returns `N` for every
`N < 10000`, returns 10000 on the 10000th call, returns 1 on the
10001st call, and never returns 0 or any value outside `[1, 10000]`. -/
theorem correlation_generator_behavior :
    (∀ N : Nat, 1 ≤ N → N < 10000 → midAfter N = (N : Int)) ∧
    midAfter 10000 = 10000 ∧
    midAfter 10001 = 1 ∧
    (∀ n : Nat, 1 ≤ n → 1 ≤ midAfter n ∧ midAfter n ≤ 10000) := by
  refine ⟨?_, ?_, ?_, ?_⟩
  · intro N h1 h2
    obtain ⟨k, rfl⟩ : ∃ k, N = k + 1 := ⟨N - 1, by omega⟩
    rw [midAfter_succ, Nat.mod_eq_of_lt (by omega)]
    push_cast
    ring
  · have h := midAfter_succ 9999
    norm_num at h
    exact h
  · have h := midAfter_succ 10000
    norm_num at h
    exact h
  · intro n h1
    obtain ⟨k, rfl⟩ : ∃ k, n = k + 1 := ⟨n - 1, by omega⟩
    rw [midAfter_succ]
    have := Nat.mod_lt k (y := 10000) (by omega)
    constructor <;> (push_cast; omega)

/-- Claim C2 witness: concrete values of the generator at calls 3,
10000, 10001 and 5. -/
theorem correlation_generator_behavior_witness :
    midAfter 3 = 3 ∧ midAfter 10000 = 10000 ∧ midAfter 10001 = 1 ∧
    (1 ≤ midAfter 5 ∧ midAfter 5 ≤ 10000) :=
  ⟨correlation_generator_behavior.1 3 (by decide) (by decide),
   correlation_generator_behavior.2.1,
   correlation_generator_behavior.2.2.1,
   correlation_generator_behavior.2.2.2 5 (by decide)⟩

/-- Claim C3: a reply whose 4-byte length prefix decodes to any value
other than 24 has 24 substituted before the remaining-byte count is
computed, so every remaining-byte read targets the canonical Ack
size: the normalized length is always 24, and every read issued by
`callbackLiRead` or `callbackLoWrite` requests either 4 bytes (the
prefix) or exactly 24 bytes. -/
theorem ack_length_canonicalization :
    (∀ l : Int, l ≠ 24 → normalizeLen l = 24) ∧
    (∀ l : Int, normalizeLen l = 24) ∧
    (∀ (oc : LiOracle) (m : Int) (st : LiState),
      ∀ x ∈ (callbackLiRead oc m st).readLog, x = 4 ∨ x = 24) ∧
    (∀ (oc : LiOracle) (m udf0 : Int),
      ∀ x ∈ (callbackLoWrite oc m udf0).readLog, x = 4 ∨ x = 24) := by
  refine ⟨fun l _ => normalizeLen_eq_24 l, normalizeLen_eq_24, ?_, ?_⟩
  · intro oc m st x hx
    by_cases hw : oc.writeOk = true
    · simp only [callbackLiRead, hw, if_true] at hx
      by_cases hmatch : (ackExchangeLoop oc.reads (midIncrement m) 3 2 0 oc.telInit
          false 0 true [] 0 0 []).matched = true
      · rw [if_pos hmatch] at hx
        simp only at hx
        rcases ackExchangeLoop_log oc.reads (midIncrement m) 3 2 0 oc.telInit
          false 0 true [] 0 0 [] x hx with h | h
        · simp at h
        · exact h
      · rw [if_neg hmatch] at hx
        simp only at hx
        rcases ackExchangeLoop_log oc.reads (midIncrement m) 3 2 0 oc.telInit
          false 0 true [] 0 0 [] x hx with h | h
        · simp at h
        · exact h
    · simp only [callbackLiRead] at hx
      rw [if_neg hw] at hx
      simp at hx
  · intro oc m udf0 x hx
    by_cases hw : oc.writeOk = true
    · simp only [callbackLoWrite, hw, if_true] at hx
      by_cases hmatch : (ackExchangeLoop oc.reads (midIncrement m) 1 2 0 oc.telInit
          false 0 true [] 0 0 []).matched = true
      · rw [if_pos hmatch] at hx
        simp only at hx
        rcases ackExchangeLoop_log oc.reads (midIncrement m) 1 2 0 oc.telInit
          false 0 true [] 0 0 [] x hx with h | h
        · simp at h
        · exact h
      · rw [if_neg hmatch] at hx
        simp only at hx
        rcases ackExchangeLoop_log oc.reads (midIncrement m) 1 2 0 oc.telInit
          false 0 true [] 0 0 [] x hx with h | h
        · simp at h
        · exact h
    · simp only [callbackLoWrite] at hx
      rw [if_neg hw] at hx
      simp at hx

/-- Claim C3 witness: the declared length 100 is normalized to 24, and
in a concrete exchange the reads request 4 then 24 bytes. -/
theorem ack_length_canonicalization_witness :
    normalizeLen 100 = 24 ∧
    (24 ∈ (callbackLiRead (ackOracle 1 0 77) 0 ⟨42, 1⟩).readLog →
      (24 : Nat) = 4 ∨ (24 : Nat) = 24) :=
  ⟨ack_length_canonicalization.1 100 (by decide),
   fun hm => ack_length_canonicalization.2.2.1 (ackOracle 1 0 77) 0 ⟨42, 1⟩ 24 hm⟩

/-- Claim C4 counterexample: starting from a zero consecutive-failure
count with the comm-error flag clear, the 200th consecutive failed
get exchange does NOT set the flag — after 200 consecutive failures
the flag is still 0, because the code raises it only when the counter
exceeds 200 (`if (comms > 200)`), which first happens on the 201st
failure.  The claim asserts the 200th failure sets it true. -/
theorem comm_latch_200th_failure_cex :
    cleanParams.commError = 0 ∧
    (iterateFailedGets 199 (0, 0, cleanParams)).2.2.commError = 0 ∧
    (iterateFailedGets 200 (0, 0, cleanParams)).2.2.commError = 0 := by
  rw [iterateFailedGets_closed, iterateFailedGets_closed]
  norm_num
  rfl

/-- Claim C4 amended: starting from a zero consecutive-failure count
with the comm-error flag clear, 200 consecutive failed get exchanges
leave the flag false, the 201st sets it true, and a single subsequent
successful (transport-successful and correlation-matched) exchange
resets the counter to zero and clears the flag. -/
theorem comm_latch_threshold_behavior (p : MotorParams) (hp : p.commError = 0) :
    (iterateFailedGets 200 (0, 0, p)).2.2.commError = 0 ∧
    (iterateFailedGets 201 (0, 0, p)).2.2.commError = 1 ∧
    (∀ (reply : WriteReadReply) (m c v : Int) (q : MotorParams),
      reply.status = true →
      decInt32 (overlayBytes reply.telInit 0 (reply.bytes.take 28)) 16 =
        midIncrement m →
      (motorAxisGet reply m c q v).comms = 0 ∧
      (motorAxisGet reply m c q v).params.commError = 0) := by
  refine ⟨?_, ?_, ?_⟩
  · rw [iterateFailedGets_closed]
    norm_num
    exact hp
  · rw [iterateFailedGets_closed]
    norm_num
  · intro reply m c v q hst hco
    simp only [motorAxisGet, hst, if_true]
    rw [if_pos hco]
    exact ⟨rfl, rfl⟩

/-- Claim C4 amended witness: the concrete clean start, and a concrete
matched exchange resetting the counter and flag. -/
theorem comm_latch_threshold_behavior_witness :
    (iterateFailedGets 200 (0, 0, cleanParams)).2.2.commError = 0 ∧
    (iterateFailedGets 201 (0, 0, cleanParams)).2.2.commError = 1 ∧
    ((motorAxisGet (motorAckReply 1 0 5) 0 300 cleanParams 42).comms = 0 ∧
      (motorAxisGet (motorAckReply 1 0 5) 0 300 cleanParams 42).params.commError = 0) :=
  ⟨(comm_latch_threshold_behavior cleanParams (by decide)).1,
   (comm_latch_threshold_behavior cleanParams (by decide)).2.1,
   (comm_latch_threshold_behavior cleanParams (by decide)).2.2
     (motorAckReply 1 0 5) 0 300 42 cleanParams (by decide) (by decide)⟩

/-- Claim C5 counterexample: an exchange whose reply carries a wrong
correlation number (999 against request id 1) ends unmatched, yet the
request was transmitted exactly once — no second transmission occurs,
because the retry bound `msgretries < 1` allows zero additional
iterations and the request write sits outside the retry loop
altogether.  The claim asserts a second full transmission occurs
whenever the first exchange was unmatched. -/
theorem single_transmission_cex :
    (callbackLiRead (ackOracle 999 0 77) 0 ⟨42, 1⟩).matched = false ∧
    (callbackLiRead (ackOracle 999 0 77) 0 ⟨42, 1⟩).writes = 1 := by
  constructor
  · decide
  · decide

/-- Claim C5 amended: no retry of the exchange ever occurs.  For every
input — matched, unmatched or failed — `callbackLiRead` and
`callbackLoWrite` transmit the request exactly once per record
processing; an unmatched or failed exchange simply returns failure
after that single transmission. -/
theorem single_transmission_per_operation :
    (∀ (oc : LiOracle) (m : Int) (st : LiState),
      (callbackLiRead oc m st).writes = 1) ∧
    (∀ (oc : LiOracle) (m udf0 : Int),
      (callbackLoWrite oc m udf0).writes = 1) := by
  constructor
  · intro oc m st
    simp only [callbackLiRead]
    split
    · split <;> rfl
    · rfl
  · intro oc m udf0
    simp only [callbackLoWrite]
    split
    · split <;> rfl
    · rfl

/-- Claim C6: in an axis-status poll with previous cached position `P`
and previous direction `D`, a new position within `P ± 499` leaves the
direction equal to `D`, a reading at least `P + 501` sets it to 1
(forward), a reading at most `P - 501` sets it to 0 (backward); and
whenever the poll computes a new position, the cached previous
position and previous direction are updated to the new reading and
the computed direction. -/
theorem direction_deadband_and_cache_update :
    (∀ P D pos : Int, P - 499 ≤ pos → pos ≤ P + 499 →
      computeDirection pos P D = D) ∧
    (∀ P D pos : Int, P + 501 ≤ pos → computeDirection pos P D = 1) ∧
    (∀ P D pos : Int, pos ≤ P - 501 → computeDirection pos P D = 0) ∧
    (∀ (oc : PollOracle) (m c : Int) (a : MotorAxisSt) (pos : Int),
      (drvAnc350GetAxisStatus oc m c a).newPosition = some pos →
      (drvAnc350GetAxisStatus oc m c a).axis.previous_position = pos ∧
      (drvAnc350GetAxisStatus oc m c a).axis.previous_direction =
        computeDirection pos a.previous_position a.previous_direction ∧
      (drvAnc350GetAxisStatus oc m c a).axis.params.direction =
        computeDirection pos a.previous_position a.previous_direction) := by
  refine ⟨?_, ?_, ?_, ?_⟩
  · intro P D pos h1 h2
    unfold computeDirection
    rw [if_neg (by omega), if_neg (by omega)]
  · intro P D pos h1
    unfold computeDirection
    rw [if_pos (by omega)]
  · intro P D pos h1
    unfold computeDirection
    rw [if_neg (by omega), if_pos (by omega)]
  · intro oc m c a pos h
    simp only [drvAnc350GetAxisStatus] at h ⊢
    generalize hr1 : motorAxisGet oc.statusReply m c a.params oc.valueInit = r1 at h ⊢
    generalize hsb : statusPhase r1 a.reference_search oc.setWriteOk = sb at h ⊢
    generalize hr2 : motorAxisGet oc.amplReply sb.mid r1.comms sb.params r1.value = r2 at h ⊢
    generalize hr3 : motorAxisGet oc.refReply r2.mid r2.comms r2.params r2.value = r3 at h ⊢
    generalize hr4 : motorAxisGet oc.counterReply r3.mid r3.comms r3.params
      r3.value = r4 at h ⊢
    generalize hrl : (if r3.ok = true then r3.value else a.reference_position) = rl at h ⊢
    by_cases hok : r4.ok = true
    · unfold positionPhase at h ⊢
      rw [if_pos hok] at h ⊢
      simp only [Option.some.injEq] at h
      subst h
      refine ⟨rfl, rfl, ?_⟩
      have hlf := limitPhase_frame
        { r4.params with
            direction := computeDirection (r4.value - rl) a.previous_position
              a.previous_direction,
            position := r4.value - rl, encoderPosn := r4.value - rl }
        sb.hump r1.ok (computeDirection (r4.value - rl) a.previous_position
          a.previous_direction)
      simpa using hlf.2.2.2.1
    · unfold positionPhase at h
      rw [if_neg hok] at h
      simp at h

/-- Claim C6 witness: a concrete poll whose position read succeeds
with reading 501 from previous position 0 and direction 0 flips the
direction forward and updates the caches. -/
theorem direction_deadband_and_cache_update_witness :
    computeDirection 501 0 0 = 1 ∧
    (drvAnc350GetAxisStatus
      ⟨failReply, failReply, failReply, motorAckReply 4 0 501, true, 0, 0⟩
      0 0 ⟨0, 0, 0, 0, 0, cleanParams⟩).axis.previous_position = 501 ∧
    (drvAnc350GetAxisStatus
      ⟨failReply, failReply, failReply, motorAckReply 4 0 501, true, 0, 0⟩
      0 0 ⟨0, 0, 0, 0, 0, cleanParams⟩).axis.previous_direction =
      computeDirection 501 0 0 :=
  ⟨direction_deadband_and_cache_update.2.1 0 0 501 (by decide),
   (direction_deadband_and_cache_update.2.2.2
     ⟨failReply, failReply, failReply, motorAckReply 4 0 501, true, 0, 0⟩
     0 0 ⟨0, 0, 0, 0, 0, cleanParams⟩ 501 (by decide)).1,
   (direction_deadband_and_cache_update.2.2.2
     ⟨failReply, failReply, failReply, motorAckReply 4 0 501, true, 0, 0⟩
     0 0 ⟨0, 0, 0, 0, 0, cleanParams⟩ 501 (by decide)).2.1⟩

/-- Claim C7 counterexample: in a poll cycle where every get exchange
fails, the cached amplitude is NOT kept — it is overwritten from the
stale local `value` (the amplitude assignment has no status check) —
and a previously-set forward hard-limit flag is NOT kept — the limit
inference unconditionally clears both flags when the status read
failed.  Here the prior state has amplitude 5000 and
`highHardLimit = 1`; after the failed cycle the amplitude is 0 (the
uninitialised local) and the flag is 0.  The claim asserts both keep
their previous values. -/
theorem poll_failed_reads_cex :
    (drvAnc350GetAxisStatus
      ⟨failReply, failReply, failReply, failReply, true, 0, 0⟩ 0 0
      ⟨7, 1, 3, 0, 5000, { cleanParams with highHardLimit := 1 }⟩).okStatus
        = false ∧
    (drvAnc350GetAxisStatus
      ⟨failReply, failReply, failReply, failReply, true, 0, 0⟩ 0 0
      ⟨7, 1, 3, 0, 5000, { cleanParams with highHardLimit := 1 }⟩).okAmpl
        = false ∧
    (drvAnc350GetAxisStatus
      ⟨failReply, failReply, failReply, failReply, true, 0, 0⟩ 0 0
      ⟨7, 1, 3, 0, 5000, { cleanParams with highHardLimit := 1 }⟩).axis.amplitude
        = 0 ∧
    (drvAnc350GetAxisStatus
      ⟨failReply, failReply, failReply, failReply, true, 0, 0⟩ 0 0
      ⟨7, 1, 3, 0, 5000, { cleanParams with highHardLimit := 1
        }⟩).axis.params.highHardLimit = 0 := by
  refine ⟨?_, ?_, ?_, ?_⟩ <;> decide

/-- Claim C7 amended: in a poll cycle, a failed status read leaves the
done and homed flags unchanged but unconditionally clears both
hard-limit flags; a failed reference-position read leaves the cached
reference position unchanged; a failed position read leaves the
cached position and direction unchanged; and the amplitude cache is
overwritten every cycle from the shared local `value`, so a failed
amplitude read stores the value left by the preceding status read
(or the uninitialised local) instead of keeping the previous
amplitude. -/
theorem poll_failure_frame_effects (oc : PollOracle) (m c : Int) (a : MotorAxisSt) :
    ((drvAnc350GetAxisStatus oc m c a).okStatus = false →
      (drvAnc350GetAxisStatus oc m c a).axis.params.done = a.params.done ∧
      (drvAnc350GetAxisStatus oc m c a).axis.params.homed = a.params.homed ∧
      (drvAnc350GetAxisStatus oc m c a).axis.params.homeSignal =
        a.params.homeSignal ∧
      (drvAnc350GetAxisStatus oc m c a).axis.params.highHardLimit = 0 ∧
      (drvAnc350GetAxisStatus oc m c a).axis.params.lowHardLimit = 0) ∧
    ((drvAnc350GetAxisStatus oc m c a).okRef = false →
      (drvAnc350GetAxisStatus oc m c a).axis.reference_position =
        a.reference_position) ∧
    ((drvAnc350GetAxisStatus oc m c a).okCounter = false →
      (drvAnc350GetAxisStatus oc m c a).axis.previous_position =
        a.previous_position ∧
      (drvAnc350GetAxisStatus oc m c a).axis.previous_direction =
        a.previous_direction ∧
      (drvAnc350GetAxisStatus oc m c a).axis.params.position =
        a.params.position ∧
      (drvAnc350GetAxisStatus oc m c a).axis.params.direction =
        a.params.direction ∧
      (drvAnc350GetAxisStatus oc m c a).axis.params.encoderPosn =
        a.params.encoderPosn) ∧
    ((drvAnc350GetAxisStatus oc m c a).okAmpl = false →
      (drvAnc350GetAxisStatus oc m c a).axis.amplitude =
        (motorAxisGet oc.statusReply m c a.params oc.valueInit).value) := by
  refine ⟨?_, ?_, ?_, ?_⟩
  · intro h
    simp only [drvAnc350GetAxisStatus] at h ⊢
    rw [statusPhase_of_fail _ _ _ h]
    simp only [limitPhase_frame, positionPhase_frame, motorAxisGet_frame,
      limitPhase_no_hump]
    simp
  · intro h
    simp only [drvAnc350GetAxisStatus] at h ⊢
    simp only [positionPhase_refPos, h, if_false]
    split <;> rfl
  · intro h
    simp only [drvAnc350GetAxisStatus] at h ⊢
    rw [positionPhase_of_fail _ _ _ h]
    simp only [limitPhase_frame, motorAxisGet_frame, statusPhase_frame]
    simp
  · intro h
    simp only [drvAnc350GetAxisStatus] at h ⊢
    rw [motorAxisGet_value_of_fail _ _ _ _ _ h]

/-- Claim C7 amended witness: applying the frame theorem at the
all-fail cycle over the concrete prior state. -/
theorem poll_failure_frame_effects_witness :
    (drvAnc350GetAxisStatus
      ⟨failReply, failReply, failReply, failReply, true, 0, 0⟩ 0 0
      ⟨7, 1, 3, 0, 5000, { cleanParams with highHardLimit := 1
        }⟩).axis.params.done = 0 ∧
    (drvAnc350GetAxisStatus
      ⟨failReply, failReply, failReply, failReply, true, 0, 0⟩ 0 0
      ⟨7, 1, 3, 0, 5000, { cleanParams with highHardLimit := 1
        }⟩).axis.reference_position = 3 ∧
    (drvAnc350GetAxisStatus
      ⟨failReply, failReply, failReply, failReply, true, 0, 0⟩ 0 0
      ⟨7, 1, 3, 0, 5000, { cleanParams with highHardLimit := 1
        }⟩).axis.previous_position = 7 :=
  ⟨((poll_failure_frame_effects
      ⟨failReply, failReply, failReply, failReply, true, 0, 0⟩ 0 0
      ⟨7, 1, 3, 0, 5000, { cleanParams with highHardLimit := 1 }⟩).1
      (by decide)).1.trans (by decide),
   ((poll_failure_frame_effects
      ⟨failReply, failReply, failReply, failReply, true, 0, 0⟩ 0 0
      ⟨7, 1, 3, 0, 5000, { cleanParams with highHardLimit := 1 }⟩).2.1
      (by decide)).trans (by decide),
   (((poll_failure_frame_effects
      ⟨failReply, failReply, failReply, failReply, true, 0, 0⟩ 0 0
      ⟨7, 1, 3, 0, 5000, { cleanParams with highHardLimit := 1 }⟩).2.2.1
      (by decide)).1).trans (by decide)⟩

/-- Claim C8 counterexample: `motorAxisSet` reports success on the
strength of a successful request write alone — it reads no reply and
consults no Ack (its embedding consumes no reply data at all), and
its return status is exactly the write status.  With a successful
write and no Ack ever received it still returns `MOTOR_AXIS_OK`,
refuting the claim that set reports success exactly when a
transport-successful, correlation-matched Ack has been received. -/
theorem motorAxisSet_write_only_cex :
    (motorAxisSet true 0).ok = true ∧ (motorAxisSet false 0).ok = false :=
  ⟨rfl, rfl⟩

/-- Claim C8 amended: the longout record's set path reports success
(clears `udf`) exactly when a transport-successful,
correlation-matched Ack is received; the matching logic decodes only
the correlation word, not the `reason` word, so an Ack carrying the
device error reason 99 clears `udf` just as reason 0 does.  The
motor-driver `motorAxisSet`, however, returns success whenever the
request write succeeds, reading no Ack at all. -/
theorem set_reports_write_status :
    (∀ (w : Bool) (m : Int), (motorAxisSet w m).ok = w) ∧
    (∀ (oc : LiOracle) (m udf0 : Int),
      (callbackLoWrite oc m udf0).matched = false →
      (callbackLoWrite oc m udf0).udf = udf0) ∧
    (∀ (oc : LiOracle) (m udf0 : Int),
      (callbackLoWrite oc m udf0).matched = true →
      (callbackLoWrite oc m udf0).udf = 0 ∧
      (callbackLoWrite oc m udf0).finalStatus = true ∧
      decInt32 (callbackLoWrite oc m udf0).tel 16 = midIncrement m) ∧
    ((callbackLoWrite (ackOracle 1 0 5) 0 7).matched = true ∧
      (callbackLoWrite (ackOracle 1 0 5) 0 7).udf = 0 ∧
      (callbackLoWrite (ackOracle 1 99 5) 0 7).matched = true ∧
      (callbackLoWrite (ackOracle 1 99 5) 0 7).udf = 0) := by
  refine ⟨fun w m => rfl, ?_, ?_, ?_⟩
  · intro oc m udf0 hm
    by_cases hw : oc.writeOk = true
    · simp only [callbackLoWrite, hw, if_true] at hm ⊢
      by_cases hmatch : (ackExchangeLoop oc.reads (midIncrement m) 1 2 0 oc.telInit
          false 0 true [] 0 0 []).matched = true
      · rw [if_pos hmatch] at hm
        simp at hm
      · rw [if_neg hmatch]
    · simp only [callbackLoWrite] at hm ⊢
      rw [if_neg hw]
  · intro oc m udf0 hm
    by_cases hw : oc.writeOk = true
    · simp only [callbackLoWrite, hw, if_true] at hm ⊢
      by_cases hmatch : (ackExchangeLoop oc.reads (midIncrement m) 1 2 0 oc.telInit
          false 0 true [] 0 0 []).matched = true
      · rw [if_pos hmatch]
        have hspec := ackExchangeLoop_matched_spec oc.reads (midIncrement m) 1 2 0
          oc.telInit 0 true [] 0 0 [] hmatch
        exact ⟨rfl, hspec.1, hspec.2⟩
      · rw [if_neg hmatch] at hm
        simp at hm
    · simp only [callbackLoWrite] at hm
      rw [if_neg hw] at hm
      simp at hm
  · exact ⟨by decide, by decide, by decide, by decide⟩

/-- Claim C8 amended witness: a silent controller leaves `udf`
untouched, and a matched Ack with reason 0 clears it. -/
theorem set_reports_write_status_witness :
    (callbackLoWrite silentOracle 0 7).udf = 7 ∧
    (callbackLoWrite (ackOracle 1 0 5) 0 7).udf = 0 :=
  ⟨set_reports_write_status.2.1 silentOracle 0 7 (by decide),
   (set_reports_write_status.2.2.1 (ackOracle 1 0 5) 0 7 (by decide)).1⟩

set_option maxRecDepth 1000000 in
/-- Claim C9 counterexample: a single failed exchange on controller 2
from the clean initial state leaves controller 2's comm-error flag
clear, but the identical exchange performed after 200 failed
exchanges on controller 1 sets controller 2's flag — even though the
controller-1 exchanges never touched controller 2's parameter table.
The consecutive-failure count is a single file-scoped variable shared
across controller instances, so exchanges on one controller do not
leave every other controller's comm-error condition unchanged. -/
theorem comms_cross_controller_cex :
    (getOnController2 failReply 0
      ⟨0, 0, cleanParams, cleanParams⟩).params2.commError = 0 ∧
    (getOnController2 failReply 0
      (iterateFailOn1 200 ⟨0, 0, cleanParams, cleanParams⟩)).params2.commError
        = 1 ∧
    (iterateFailOn1 200 ⟨0, 0, cleanParams, cleanParams⟩).params2 =
      cleanParams := by
  refine ⟨by decide, by decide, by decide⟩

/-- Claim C9 amended: the consecutive-failure counter is one
file-scoped variable shared by every controller instance of the
motor driver.  Any failed exchange increments that one counter (and
can therefore push another controller's next failure over the
threshold), any matched successful exchange resets it for all
controllers, and only the per-axis comm-error parameter itself is
written per controller. -/
theorem comms_counter_shared_across_controllers (s : TwoControllers) (v : Int)
    (reply : WriteReadReply) :
    (reply.status = false →
      (getOnController1 reply v s).comms = s.comms + 1 ∧
      (getOnController1 reply v s).params2 = s.params2 ∧
      (getOnController2 reply v s).comms = s.comms + 1 ∧
      (getOnController2 reply v s).params1 = s.params1 ∧
      (s.comms = 200 → (getOnController2 reply v s).params2.commError = 1)) ∧
    (reply.status = true →
      decInt32 (overlayBytes reply.telInit 0 (reply.bytes.take 28)) 16 =
        midIncrement s.mid →
      (getOnController1 reply v s).comms = 0 ∧
      (getOnController2 reply v s).comms = 0) := by
  constructor
  · intro hf
    simp only [getOnController1, getOnController2, motorAxisGet, getFailTail, hf,
      Bool.false_eq_true, if_false]
    refine ⟨trivial, trivial, trivial, trivial, ?_⟩
    intro h200
    rw [h200]
    norm_num
  · intro hst hco
    simp only [getOnController1, getOnController2, motorAxisGet, hst, if_true]
    rw [if_pos hco, if_pos hco]
    exact ⟨rfl, rfl⟩

/-- Claim C9 amended witness: with the shared counter at 200, a failed
exchange on controller 2 raises its flag; a matched exchange resets
the counter. -/
theorem comms_counter_shared_across_controllers_witness :
    (getOnController2 failReply 0
      ⟨0, 200, cleanParams, cleanParams⟩).params2.commError = 1 ∧
    (getOnController1 (motorAckReply 1 0 5) 0
      ⟨0, 77, cleanParams, cleanParams⟩).comms = 0 :=
  ⟨((comms_counter_shared_across_controllers
      ⟨0, 200, cleanParams, cleanParams⟩ 0 failReply).1 (by decide)).2.2.2.2
      (by decide),
   ((comms_counter_shared_across_controllers
      ⟨0, 77, cleanParams, cleanParams⟩ 0 (motorAckReply 1 0 5)).2 (by decide)
      (by decide)).1⟩

/-- Claim C10: in a longin record processing, `val` and `udf` are
written only when a reply was received with successful transport
status and a correlation number equal to the request's; on a write
failure, an exhausted read budget or a correlation mismatch, the
exchange ends unmatched and both fields keep the values they had
before the exchange. -/
theorem longin_fields_written_only_on_match (oc : LiOracle) (m : Int)
    (st : LiState) :
    (oc.writeOk = false → (callbackLiRead oc m st).matched = false) ∧
    ((callbackLiRead oc m st).matched = false →
      (callbackLiRead oc m st).val = st.val ∧
      (callbackLiRead oc m st).udf = st.udf) ∧
    ((callbackLiRead oc m st).matched = true →
      (callbackLiRead oc m st).finalStatus = true ∧
      decInt32 (callbackLiRead oc m st).tel 16 = midIncrement m ∧
      (callbackLiRead oc m st).udf = 0 ∧
      (callbackLiRead oc m st).val = decInt32 (callbackLiRead oc m st).tel 24) := by
  refine ⟨?_, ?_, ?_⟩
  · intro hw
    simp only [callbackLiRead]
    rw [if_neg (by simp [hw])]
  · intro hm
    by_cases hw : oc.writeOk = true
    · simp only [callbackLiRead, hw, if_true] at hm ⊢
      by_cases hmatch : (ackExchangeLoop oc.reads (midIncrement m) 3 2 0 oc.telInit
          false 0 true [] 0 0 []).matched = true
      · rw [if_pos hmatch] at hm
        simp at hm
      · rw [if_neg hmatch]
        exact ⟨rfl, rfl⟩
    · simp only [callbackLiRead] at hm ⊢
      rw [if_neg hw]
      exact ⟨rfl, rfl⟩
  · intro hm
    by_cases hw : oc.writeOk = true
    · simp only [callbackLiRead, hw, if_true] at hm ⊢
      by_cases hmatch : (ackExchangeLoop oc.reads (midIncrement m) 3 2 0 oc.telInit
          false 0 true [] 0 0 []).matched = true
      · rw [if_pos hmatch]
        have hspec := ackExchangeLoop_matched_spec oc.reads (midIncrement m) 3 2 0
          oc.telInit 0 true [] 0 0 [] hmatch
        exact ⟨hspec.1, hspec.2, rfl, rfl⟩
      · rw [if_neg hmatch] at hm
        simp at hm
    · simp only [callbackLiRead] at hm
      rw [if_neg hw] at hm
      simp at hm

/-- Claim C10 witness: a silent controller leaves the record fields
untouched; a matched reply writes them. -/
theorem longin_fields_written_only_on_match_witness :
    (callbackLiRead silentOracle 0 ⟨42, 1⟩).val = 42 ∧
    (callbackLiRead silentOracle 0 ⟨42, 1⟩).udf = 1 ∧
    (callbackLiRead (ackOracle 1 0 77) 0 ⟨42, 1⟩).udf = 0 :=
  ⟨((longin_fields_written_only_on_match silentOracle 0 ⟨42, 1⟩).2.1
      (by decide)).1,
   ((longin_fields_written_only_on_match silentOracle 0 ⟨42, 1⟩).2.1
      (by decide)).2,
   ((longin_fields_written_only_on_match (ackOracle 1 0 77) 0 ⟨42, 1⟩).2.2
      (by decide)).2.2.1⟩

end Anc350
